import Mathlib

/-!
Verification of the two ML pipeline modules of the bharat-ai-hub repository:
`src/ml/models/demand-forecasting.py` (class `DemandForecastingModel` and its
lambda handler) and `src/ml/models/health-diagnosis.py` (class
`HealthDiagnosisModel` and its lambda handler).

The Python code is shallowly embedded: numeric values are rationals,
numpy/pandas arrays are lists, fitted third-party estimators (LSTM network,
random forest, gradient boosting, XGBoost, fitted scalers and feature
selectors) are abstract functions, and unfitted library components are
`Option.none` so that calling them models the NotFittedError that scikit-learn
raises.  Exceptions are modelled with `Except String`.
-/

namespace BharatAI

/-! ### Generic helpers: substring matching (Python `in` on strings) -/

/-- Whether `n` occurs as a leading segment of `h` (helper for `hasSub`). -/
def leadsAt : List Char → List Char → Bool
  | [], _ => true
  | _ :: _, [] => false
  | a :: as, b :: bs => a == b && leadsAt as bs

/-- Whether `n` occurs as a contiguous sublist of `h`; this is Python's
`n in h` on strings. -/
def hasSub (n : List Char) : List Char → Bool
  | [] => leadsAt n []
  | b :: bs => leadsAt n (b :: bs) || hasSub n bs

/-- Python `str.lower`, character by character. -/
def lowerStr (s : String) : List Char :=
  s.data.map Char.toLower

/-- `n` occurs contiguously in `h` (the specification-side notion). -/
def SubOf (n h : List Char) : Prop :=
  ∃ pre post, h = pre ++ n ++ post

theorem leadsAt_iff (n h : List Char) :
    leadsAt n h = true ↔ ∃ post, h = n ++ post := by
  induction n generalizing h with
  | nil => simp [leadsAt]
  | cons a as ih =>
    cases h with
    | nil => simp [leadsAt]
    | cons b bs =>
      simp only [leadsAt, Bool.and_eq_true, beq_iff_eq, ih]
      constructor
      · rintro ⟨rfl, post, rfl⟩; exact ⟨post, rfl⟩
      · rintro ⟨post, hpost⟩
        rw [List.cons_append] at hpost
        injection hpost with h1 h2
        exact ⟨h1.symm, post, h2⟩

theorem hasSub_iff (n h : List Char) : hasSub n h = true ↔ SubOf n h := by
  induction h with
  | nil =>
    simp only [hasSub, SubOf, leadsAt_iff]
    constructor
    · rintro ⟨post, hp⟩
      exact ⟨[], post, by simpa using hp⟩
    · rintro ⟨pre, post, hp⟩
      have hnil : pre = [] ∧ n ++ post = [] := by
        constructor
        · cases pre with
          | nil => rfl
          | cons x xs => simp at hp
        · cases pre with
          | nil => simpa using hp.symm
          | cons x xs => simp at hp
      exact ⟨post, by rw [hnil.2]⟩
  | cons b bs ih =>
    simp only [hasSub, Bool.or_eq_true, leadsAt_iff, ih, SubOf]
    constructor
    · rintro (⟨post, hp⟩ | ⟨pre, post, hp⟩)
      · exact ⟨[], post, by simpa using hp⟩
      · exact ⟨b :: pre, post, by simp [hp]⟩
    · rintro ⟨pre, post, hp⟩
      cases pre with
      | nil => exact Or.inl ⟨post, by simpa using hp⟩
      | cons x xs =>
        right
        refine ⟨xs, post, ?_⟩
        simpa using congrArg List.tail hp

/-! ### Generic helpers: sorted unique values, counts, argmax
(`np.unique(votes, return_counts=True)` and `np.argmax`). -/

/-- Insert an integer into a sorted list (helper of `sortInts`). -/
def insOrd (a : ℤ) : List ℤ → List ℤ
  | [] => [a]
  | b :: bs => if a ≤ b then a :: b :: bs else b :: insOrd a bs

/-- Insertion sort on integers, ascending, as `np.unique` sorts its output. -/
def sortInts : List ℤ → List ℤ
  | [] => []
  | a :: as => insOrd a (sortInts as)

theorem mem_insOrd (a x : ℤ) (l : List ℤ) : x ∈ insOrd a l ↔ x = a ∨ x ∈ l := by
  induction l with
  | nil => simp [insOrd]
  | cons b bs ih =>
    by_cases hab : a ≤ b
    · simp [insOrd, hab]
    · simp [insOrd, hab, ih]
      tauto

theorem mem_sortInts (x : ℤ) (l : List ℤ) : x ∈ sortInts l ↔ x ∈ l := by
  induction l with
  | nil => simp [sortInts]
  | cons a as ih => simp [sortInts, mem_insOrd, ih]

theorem length_insOrd (a : ℤ) (l : List ℤ) : (insOrd a l).length = l.length + 1 := by
  induction l with
  | nil => simp [insOrd]
  | cons b bs ih =>
    by_cases hab : a ≤ b
    · simp [insOrd, hab]
    · simp [insOrd, hab, ih]

theorem length_sortInts (l : List ℤ) : (sortInts l).length = l.length := by
  induction l with
  | nil => simp [sortInts]
  | cons a as ih => simp [sortInts, length_insOrd, ih]

/-- Index of the first occurrence of the maximum in a list of counts,
mirroring `np.argmax` (which returns the first index attaining the max). -/
def argmaxFirst : List ℕ → ℕ
  | [] => 0
  | [_] => 0
  | a :: b :: t =>
      if (b :: t).getD (argmaxFirst (b :: t)) 0 > a then argmaxFirst (b :: t) + 1
      else 0

theorem argmaxFirst_cons_cons (a b : ℕ) (u : List ℕ) :
    argmaxFirst (a :: b :: u) =
      if (b :: u).getD (argmaxFirst (b :: u)) 0 > a then argmaxFirst (b :: u) + 1
      else 0 := rfl

theorem argmaxFirst_lt (l : List ℕ) (hl : l ≠ []) : argmaxFirst l < l.length := by
  induction l with
  | nil => simp at hl
  | cons a t ih =>
    cases t with
    | nil => simp [argmaxFirst]
    | cons b u =>
      have hbu : (b :: u) ≠ [] := by simp
      rw [argmaxFirst_cons_cons]
      by_cases hgt : (b :: u).getD (argmaxFirst (b :: u)) 0 > a
      · rw [if_pos hgt]
        simpa using Nat.succ_lt_succ (ih hbu)
      · rw [if_neg hgt]
        simp

theorem argmaxFirst_max (l : List ℕ) (j : ℕ) (hj : j < l.length) :
    l.getD j 0 ≤ l.getD (argmaxFirst l) 0 := by
  induction l generalizing j with
  | nil => simp at hj
  | cons a t ih =>
    cases t with
    | nil =>
      have hj0 : j = 0 := by
        simp only [List.length_cons, List.length_nil] at hj
        omega
      subst hj0
      simp [argmaxFirst]
    | cons b u =>
      rw [argmaxFirst_cons_cons]
      by_cases hgt : (b :: u).getD (argmaxFirst (b :: u)) 0 > a
      · rw [if_pos hgt]
        cases j with
        | zero => simpa using le_of_lt hgt
        | succ k =>
          have hk : k < (b :: u).length := by simpa using hj
          simpa using ih k hk
      · push_neg at hgt
        rw [if_neg (not_lt.mpr hgt)]
        cases j with
        | zero => simp
        | succ k =>
          have hk : k < (b :: u).length := by simpa using hj
          simpa using le_trans (ih k hk) hgt

/-- `np.unique(votes, return_counts=True)`: the sorted distinct values of
`votes` paired with their multiplicities. -/
def uniqueCounts (votes : List ℤ) : List ℤ × List ℕ :=
  let u := sortInts votes.dedup
  (u, u.map (fun v => votes.count v))

/-- The per-sample majority vote of `HealthDiagnosisModel.predict_ensemble`:
`unique[np.argmax(counts)]`. -/
def majorityVote (votes : List ℤ) : ℤ :=
  let uc := uniqueCounts votes
  uc.1.getD (argmaxFirst uc.2) 0

theorem majorityVote_spec (votes : List ℤ) (hne : votes ≠ []) :
    majorityVote votes ∈ votes ∧
      ∀ u : ℤ, votes.count u ≤ votes.count (majorityVote votes) := by
  classical
  have hdedne : votes.dedup ≠ [] := by
    intro h
    exact hne ((List.dedup_eq_nil votes).mp h)
  have hlen : (sortInts votes.dedup).length = votes.dedup.length := length_sortInts _
  have hu'ne : sortInts votes.dedup ≠ [] := by
    intro h
    rw [h] at hlen
    exact hdedne (List.length_eq_zero.mp hlen.symm)
  have hctslen :
      ((sortInts votes.dedup).map (fun v => votes.count v)).length
        = (sortInts votes.dedup).length := List.length_map _ _
  have hctsne : (sortInts votes.dedup).map (fun v => votes.count v) ≠ [] := by
    intro h
    rw [h] at hctslen
    exact hu'ne (List.length_eq_zero.mp hctslen.symm)
  have hidx :
      argmaxFirst ((sortInts votes.dedup).map (fun v => votes.count v))
        < (sortInts votes.dedup).length := by
    have := argmaxFirst_lt _ hctsne
    rwa [hctslen] at this
  have hmv : majorityVote votes
      = (sortInts votes.dedup).getD
          (argmaxFirst ((sortInts votes.dedup).map (fun v => votes.count v))) 0 := rfl
  have hgetm : ∀ j, j < (sortInts votes.dedup).length →
      ((sortInts votes.dedup).map (fun v => votes.count v)).getD j 0
        = votes.count ((sortInts votes.dedup).getD j 0) := by
    intro j hj
    rw [List.getD_eq_getElem _ _ (by rwa [hctslen]), List.getD_eq_getElem _ _ hj]
    simp
  have hmem : majorityVote votes ∈ votes := by
    rw [hmv, List.getD_eq_getElem _ _ hidx]
    have : (sortInts votes.dedup)[argmaxFirst
        ((sortInts votes.dedup).map (fun v => votes.count v))] ∈ sortInts votes.dedup :=
      List.getElem_mem _
    rw [mem_sortInts] at this
    exact (List.mem_dedup).mp this
  refine ⟨hmem, fun u => ?_⟩
  by_cases hu : u ∈ votes
  · have hud : u ∈ sortInts votes.dedup := by
      rw [mem_sortInts]
      exact (List.mem_dedup).mpr hu
    obtain ⟨j, hj, hget⟩ := List.mem_iff_getElem.mp hud
    have hgj : (sortInts votes.dedup).getD j 0 = u := by
      rw [List.getD_eq_getElem _ _ hj]
      exact hget
    have h1 : votes.count u
        = ((sortInts votes.dedup).map (fun v => votes.count v)).getD j 0 := by
      rw [hgetm j hj, hgj]
    have h2 := argmaxFirst_max ((sortInts votes.dedup).map (fun v => votes.count v)) j
      (by rwa [hctslen])
    rw [h1, hmv]
    rw [hgetm _ hidx] at h2
    exact h2
  · have : votes.count u = 0 := List.count_eq_zero.mpr hu
    omega

/-- When at least two of three votes agree on `v`, the majority vote is `v`. -/
theorem majorityVote_two_of_three (a b c v : ℤ)
    (h : (a = v ∧ b = v) ∨ (a = v ∧ c = v) ∨ (b = v ∧ c = v)) :
    majorityVote [a, b, c] = v := by
  obtain ⟨hmem, hcount⟩ := majorityVote_spec [a, b, c] (by simp)
  by_contra hmv
  have hcv := hcount v
  have hmem3 : majorityVote [a, b, c] = a ∨ majorityVote [a, b, c] = b ∨
      majorityVote [a, b, c] = c := by
    simpa using hmem
  rcases h with ⟨h1, h2⟩ | ⟨h1, h2⟩ | ⟨h1, h2⟩
  · have hmc : majorityVote [a, b, c] = c := by
      rcases hmem3 with hx | hx | hx
      · exact absurd (hx.trans h1) hmv
      · exact absurd (hx.trans h2) hmv
      · exact hx
    have hcne : c ≠ v := fun he => hmv (hmc.trans he)
    rw [hmc, h1, h2] at hcv
    simp [List.count_cons, hcne, Ne.symm hcne] at hcv
  · have hmb : majorityVote [a, b, c] = b := by
      rcases hmem3 with hx | hx | hx
      · exact absurd (hx.trans h1) hmv
      · exact hx
      · exact absurd (hx.trans h2) hmv
    have hbne : b ≠ v := fun he => hmv (hmb.trans he)
    rw [hmb, h1, h2] at hcv
    simp [List.count_cons, hbne, Ne.symm hbne] at hcv
  · have hma : majorityVote [a, b, c] = a := by
      rcases hmem3 with hx | hx | hx
      · exact hx
      · exact absurd (hx.trans h1) hmv
      · exact absurd (hx.trans h2) hmv
    have hane : a ≠ v := fun he => hmv (hma.trans he)
    rw [hma, h1, h2] at hcv
    simp [List.count_cons, hane, Ne.symm hane] at hcv

/-! ### Embedding of `health-diagnosis.py` (`class HealthDiagnosisModel`)

A feature matrix is a list of rows of rationals.  A fitted scikit-learn
estimator (or scaler, selector, label encoder) is an abstract function; an
unfitted one is `none`, and calling it raises scikit-learn's NotFittedError,
modelled as an `Except.error`. -/

/-- One of the three ensemble members.  `has_predict_proba` models Python's
`hasattr(model, 'predict_proba')`, which is a property of the class and is
true for RandomForest, GradientBoosting and XGBoost alike. -/
structure Classifier where
  predictF : Option (List (List ℚ) → List ℤ)
  predict_proba : Option (List (List ℚ) → List (List ℚ))
  has_predict_proba : Bool

/-- The state of a `HealthDiagnosisModel` object: the (named) ensemble
members, and the preprocessing components, each `none` while unfitted. -/
structure HealthDiagnosisModel where
  models : List (String × Classifier)
  scaler : Option (List (List ℚ) → List (List ℚ))
  feature_selector : Option (List (List ℚ) → List (List ℚ))
  label_encoder : Option (ℤ → String)

/-- `HealthDiagnosisModel.__init__`: three freshly constructed (unfitted)
classifiers and unfitted preprocessing components. -/
def freshHealthDiagnosisModel : HealthDiagnosisModel where
  models := [("random_forest", ⟨none, none, true⟩),
             ("gradient_boosting", ⟨none, none, true⟩),
             ("xgboost", ⟨none, none, true⟩)]
  scaler := none
  feature_selector := none
  label_encoder := none

/-- The fixed keyword table of `preprocess_symptoms`. -/
def symptom_keywords : List (String × List String) :=
  [("fever", ["fever", "temperature", "hot", "burning"]),
   ("cough", ["cough", "coughing", "throat"]),
   ("headache", ["headache", "head pain", "migraine"]),
   ("fatigue", ["tired", "fatigue", "weakness", "exhausted"]),
   ("nausea", ["nausea", "vomiting", "sick"]),
   ("diarrhea", ["diarrhea", "loose stool", "stomach"]),
   ("chest_pain", ["chest pain", "chest", "heart"]),
   ("shortness_breath", ["breath", "breathing", "respiratory"]),
   ("dizziness", ["dizzy", "dizziness", "lightheaded"]),
   ("rash", ["rash", "skin", "itching", "spots"]),
   ("joint_pain", ["joint", "arthritis", "stiff"]),
   ("abdominal_pain", ["abdominal", "stomach pain", "belly"]),
   ("back_pain", ["back pain", "spine", "lower back"]),
   ("muscle_pain", ["muscle", "ache", "sore"]),
   ("loss_appetite", ["appetite", "eating", "hunger"])]

/-- `HealthDiagnosisModel.preprocess_symptoms`: one 0/1 flag per symptom
category, set when any keyword occurs in the lowercased text. -/
def preprocess_symptoms (symptoms_text : String) : List (String × ℕ) :=
  symptom_keywords.map (fun p =>
    (p.1, if p.2.any (fun keyword => hasSub keyword.data (lowerStr symptoms_text))
          then 1 else 0))

/-- A row of the patient table.  `none` models an absent column/key. -/
structure PatientRow where
  age : Option ℚ
  gender : Option String
  symptoms : Option String
  medical_history : Option String
  temperature : Option ℚ
  blood_pressure_systolic : Option ℚ
  blood_pressure_diastolic : Option ℚ
  heart_rate : Option ℚ
  respiratory_rate : Option ℚ
deriving DecidableEq

/-- The medical-history conditions checked by `prepare_features`. -/
def medical_conditions : List String :=
  ["diabetes", "hypertension", "heart_disease", "asthma"]

/-- The feature dictionary `prepare_features` builds for one row
(insertion order of the Python dict preserved). -/
def prepare_features_row (r : PatientRow) : List (String × ℚ) :=
  let base := [("age", r.age.getD 0),
               ("gender_male",
                 if lowerStr (r.gender.getD "") = "male".data then (1 : ℚ) else 0),
               ("gender_female",
                 if lowerStr (r.gender.getD "") = "female".data then (1 : ℚ) else 0)]
  let withSymptoms :=
    match r.symptoms with
    | some s => base ++ (preprocess_symptoms s).map (fun p => (p.1, (p.2 : ℚ)))
    | none => base
  let withHistory := withSymptoms ++ medical_conditions.map (fun condition =>
    (String.append "history_" condition,
     if hasSub condition.data (lowerStr (r.medical_history.getD ""))
     then (1 : ℚ) else 0))
  withHistory ++
    [("temperature", r.temperature.getD 0),
     ("blood_pressure_systolic", r.blood_pressure_systolic.getD 0),
     ("blood_pressure_diastolic", r.blood_pressure_diastolic.getD 0),
     ("heart_rate", r.heart_rate.getD 0),
     ("respiratory_rate", r.respiratory_rate.getD 0)]

/-- `HealthDiagnosisModel.prepare_features`, with the method's implicit
state threading made explicit: the body never assigns to `self` or to the
input rows, so the state passes through and the output is a fresh table. -/
def prepare_features (st : HealthDiagnosisModel) (data : List PatientRow) :
    HealthDiagnosisModel × List (List (String × ℚ)) :=
  (st, data.map prepare_features_row)

/-- Effectful map over a list, mirroring the Python `for` loops that call a
possibly-raising operation on every element and collect the results. -/
def mapME {α β : Type} (g : α → Except String β) : List α → Except String (List β)
  | [] => Except.ok []
  | a :: t => do
      let b ← g a
      let bs ← mapME g t
      pure (b :: bs)

/-- Calling `.transform` on a possibly-unfitted preprocessing component. -/
def applyTransform (o : Option (List (List ℚ) → List (List ℚ))) (name : String)
    (X : List (List ℚ)) : Except String (List (List ℚ)) :=
  match o with
  | some f => Except.ok (f X)
  | none => Except.error (String.append name " instance is not fitted yet")

/-- Calling `.predict` on a possibly-unfitted classifier. -/
def applyPredict (c : String × Classifier) (X : List (List ℚ)) :
    Except String (List ℤ) :=
  match c.2.predictF with
  | some p => Except.ok (p X)
  | none => Except.error (String.append c.1 " estimator is not fitted yet")

/-- Calling `.predict_proba` on a possibly-unfitted classifier. -/
def applyPredictProba (c : String × Classifier) (X : List (List ℚ)) :
    Except String (List (List ℚ)) :=
  match c.2.predict_proba with
  | some p => Except.ok (p X)
  | none => Except.error (String.append c.1 " estimator is not fitted yet")

/-- `HealthDiagnosisModel.predict_ensemble`: scale, select, collect each
model's predictions, then take the per-sample majority vote. -/
def predict_ensemble (st : HealthDiagnosisModel) (X : List (List ℚ)) :
    Except String (List ℤ) := do
  if st.models.isEmpty then
    throw "Models not trained"
  let X_scaled ← applyTransform st.scaler "StandardScaler" X
  let X_selected ← applyTransform st.feature_selector "SelectKBest" X_scaled
  let predictions ← mapME (fun c => applyPredict c X_selected) st.models
  let ncols := (predictions.headD []).length
  pure ((List.range ncols).map (fun i =>
    majorityVote (predictions.map (fun p => p.getD i 0))))

/-- `np.mean(all_probas, axis=0)`: the element-wise arithmetic mean of a
stack of matrices. -/
def matMean (ms : List (List (List ℚ))) : List (List ℚ) :=
  let h := ms.headD []
  (List.range h.length).map (fun i =>
    (List.range ((h.getD i []).length)).map (fun j =>
      (ms.map (fun M => (M.getD i []).getD j 0)).sum / (ms.length : ℚ)))

/-- `HealthDiagnosisModel.predict_proba_ensemble`: scale, select, collect
the class-probability matrix of every model exposing `predict_proba`, and
average them element-wise. -/
def predict_proba_ensemble (st : HealthDiagnosisModel) (X : List (List ℚ)) :
    Except String (List (List ℚ)) := do
  if st.models.isEmpty then
    throw "Models not trained"
  let X_scaled ← applyTransform st.scaler "StandardScaler" X
  let X_selected ← applyTransform st.feature_selector "SelectKBest" X_scaled
  let all_probas ← mapME (fun c => applyPredictProba c X_selected)
    (st.models.filter (fun c => c.2.has_predict_proba))
  pure (matMean all_probas)

/-- `np.max` over a probability row (raises on empty input in numpy; the
rows handed to it by `diagnose` are class-probability vectors). -/
def listMax : List ℚ → ℚ
  | [] => 0
  | [a] => a
  | a :: b :: t => max a (listMax (b :: t))

/-- Insert index `i` into an index list sorted ascending by the keys
`l.getD _ 0`, after any index with an equal key (helper of `argsortAsc`). -/
def insIdx (l : List ℚ) (i : ℕ) : List ℕ → List ℕ
  | [] => [i]
  | j :: js => if l.getD i 0 < l.getD j 0 then i :: j :: js else j :: insIdx l i js

/-- `np.argsort(l)`: the indices of `l` ordered by ascending value (numpy's
default sort leaves the order of equal keys unspecified; this model keeps
equal keys in index order). -/
def argsortAsc (l : List ℚ) : List ℕ :=
  (List.range l.length).foldl (fun acc i => insIdx l i acc) []

/-- `label_encoder.inverse_transform([v])[0]` on a possibly-unfitted
encoder. -/
def inverse_transform (st : HealthDiagnosisModel) (v : ℤ) : Except String String :=
  match st.label_encoder with
  | some f => Except.ok (f v)
  | none => Except.error "LabelEncoder instance is not fitted yet"

/-- One entry of the `top_diagnoses` list built by `diagnose`. -/
structure DiagnosisEntry where
  diagnosis : String
  probability : ℚ

/-- The per-patient result dictionary built by `diagnose`. -/
structure DiagnosisResult where
  primary_diagnosis : String
  confidence : ℚ
  top_diagnoses : List DiagnosisEntry
  risk_level : String

/-- One iteration of the result loop of `diagnose`, for the pair
`(pred, proba)` of one patient: decode the primary diagnosis, take the
maximum probability as confidence, decode the top-3 diagnoses, and grade
the risk level. -/
def diagnoseOne (st : HealthDiagnosisModel) (pp : ℤ × List ℚ) :
    Except String DiagnosisResult := do
  let diagnosis ← inverse_transform st pp.1
  let proba := pp.2
  let confidence := listMax proba
  let top_indices := ((argsortAsc proba).drop (proba.length - 3)).reverse
  let top_diagnoses ← mapME (fun idx => do
    let d ← inverse_transform st (Int.ofNat idx)
    pure (DiagnosisEntry.mk d (proba.getD idx 0))) top_indices
  pure (DiagnosisResult.mk diagnosis confidence top_diagnoses
    (if confidence > 4/5 then "high"
     else if confidence > 3/5 then "medium" else "low"))

/-- `HealthDiagnosisModel.diagnose`: prepare features, run both ensemble
predictions, and build one result per patient.  (The Python method returns
`results[0]` when there is exactly one patient; the result list is the
common content of both cases.) -/
def diagnose (st : HealthDiagnosisModel) (patient_data : List PatientRow) :
    Except String (List DiagnosisResult) := do
  let X := (prepare_features st patient_data).2
  let Xmat := X.map (fun row => row.map Prod.snd)
  let predictions ← predict_ensemble st Xmat
  let probabilities ← predict_proba_ensemble st Xmat
  mapME (diagnoseOne st) (predictions.zip probabilities)

/-! ### The health-diagnosis lambda handler -/

/-- A JSON value, as far as the handlers' response bodies need. -/
inductive JVal where
  | jstr : String → JVal
  | jnum : ℚ → JVal
  | jarr : List JVal → JVal
  | jobj : List (String × JVal) → JVal

/-- The handler's HTTP-style response envelope: a status code and the JSON
object that `json.dumps` serializes. -/
structure LambdaResponse where
  statusCode : ℕ
  body : List (String × JVal)

/-- Serialization of one `top_diagnoses` entry. -/
def encodeEntry (e : DiagnosisEntry) : JVal :=
  JVal.jobj [("diagnosis", JVal.jstr e.diagnosis),
             ("probability", JVal.jnum e.probability)]

/-- Serialization of one diagnosis result. -/
def encodeResult (r : DiagnosisResult) : JVal :=
  JVal.jobj [("primary_diagnosis", JVal.jstr r.primary_diagnosis),
             ("confidence", JVal.jnum r.confidence),
             ("top_diagnoses", JVal.jarr (r.top_diagnoses.map encodeResult0)),
             ("risk_level", JVal.jstr r.risk_level)]
where encodeResult0 := encodeEntry

/-- The disclaimer string of the 200 response. -/
def disclaimerText : String :=
  String.append "This is an AI-generated preliminary assessment. "
    "Please consult a healthcare professional for proper medical advice."

/-- The try-block of `lambda_handler` in `health-diagnosis.py`.  `parsed`
is the outcome of `json.loads(event['body'])` (the parse of the request
event).  The handler constructs a fresh `HealthDiagnosisModel` (the
`load_model` call is commented out in the source) and diagnoses with it. -/
def health_pipeline (parsed : Except String (List PatientRow)) :
    Except String (List DiagnosisResult) := do
  let input_data ← parsed
  diagnose freshHealthDiagnosisModel input_data

/-- The response construction of the health handler, matching on the
outcome of the try-block. -/
def health_lambda_handler (now : String)
    (parsed : Except String (List PatientRow)) : LambdaResponse :=
  match health_pipeline parsed with
  | Except.ok r =>
      { statusCode := 200,
        body := [("diagnosis", JVal.jarr (r.map encodeResult)),
                 ("model_version", JVal.jstr "1.0.0"),
                 ("timestamp", JVal.jstr now),
                 ("disclaimer", JVal.jstr disclaimerText)] }
  | Except.error e =>
      { statusCode := 500,
        body := [("error", JVal.jstr e), ("timestamp", JVal.jstr now)] }

/-! ### Embedding of `demand-forecasting.py` (`class DemandForecastingModel`)

`pd.to_datetime(...).dt.dayofweek` and `.dt.month` are library calls; a date
is modelled by the two fields the code reads from it. -/

/-- An abstract calendar date (0 = Monday, ..., 6 = Sunday for
`dayofweek`). -/
structure DateV where
  dayofweek : ℕ
  month : ℕ
deriving DecidableEq

/-- A row of the demand table.  The last four fields are the columns that
`prepare_data` writes into the input DataFrame; `none` models an absent
column. -/
structure DemandRow where
  date : DateV
  sales : ℚ
  price : ℚ
  is_holiday : Option ℚ
  day_of_week : Option ℚ
  month : Option ℚ
  is_weekend : Option ℚ
deriving DecidableEq

/-- `np.min` over a list of rationals (0 on empty, never reached on the
columns the scaler sees). -/
def listMin : List ℚ → ℚ
  | [] => 0
  | [a] => a
  | a :: b :: t => min a (listMin (b :: t))

/-- `MinMaxScaler` state: `none` while unfitted, otherwise the per-column
`data_min_` and `data_max_` learned by `fit`. -/
structure MinMaxScaler where
  fitted : Option (List ℚ × List ℚ)

/-- One entry of `MinMaxScaler.transform` for feature range (0, 1):
`(x - min) / (max - min)`, a zero range replaced by 1 as scikit-learn's
`_handle_zeros_in_scale` does. -/
def mmScale (mn mx x : ℚ) : ℚ :=
  (x - mn) / (if mx - mn = 0 then 1 else mx - mn)

/-- One entry of `MinMaxScaler.inverse_transform`: `y * (max - min) + min`,
with the same zero-range convention. -/
def mmUnscale (mn mx y : ℚ) : ℚ :=
  y * (if mx - mn = 0 then 1 else mx - mn) + mn

/-- `MinMaxScaler.fit_transform`: learn per-column min and max, then scale
every entry; returns the newly fitted scaler and the scaled matrix. -/
def mm_fit_transform (X : List (List ℚ)) : MinMaxScaler × List (List ℚ) :=
  let ncols := (X.headD []).length
  let mins := (List.range ncols).map (fun j => listMin (X.map (fun r => r.getD j 0)))
  let maxs := (List.range ncols).map (fun j => listMax (X.map (fun r => r.getD j 0)))
  (⟨some (mins, maxs)⟩,
   X.map (fun r => (List.range ncols).map (fun j =>
     mmScale (mins.getD j 0) (maxs.getD j 0) (r.getD j 0))))

/-- `MinMaxScaler.inverse_transform` on a fitted scaler. -/
def mm_inverse_transform (mins maxs : List ℚ) (X : List (List ℚ)) :
    List (List ℚ) :=
  X.map (fun r => (List.range r.length).map (fun j =>
    mmUnscale (mins.getD j 0) (maxs.getD j 0) (r.getD j 0)))

/-- The state of a `DemandForecastingModel` object.  The fitted LSTM is an
abstract function from one input window to the predicted (scaled) sales
value; `none` models the untrained state. -/
structure DemandForecastingModel where
  sequence_length : ℕ
  features : ℕ
  model : Option (List (List ℚ) → ℚ)
  scaler : MinMaxScaler

/-- `DemandForecastingModel.__init__(sequence_length=30, features=5)`. -/
def mkDemandForecastingModel (sequence_length : ℕ := 30) (features : ℕ := 5) :
    DemandForecastingModel :=
  ⟨sequence_length, features, none, ⟨none⟩⟩

/-- The derived-column writes `prepare_data` performs on the input frame:
`day_of_week`, `month`, `is_weekend`, and `is_holiday` defaulted to 0. -/
def deriveRow (r : DemandRow) : DemandRow :=
  { r with
    day_of_week := some (r.date.dayofweek : ℚ),
    month := some (r.date.month : ℚ),
    is_weekend := some (if r.date.dayofweek = 5 ∨ r.date.dayofweek = 6
                        then (1 : ℚ) else 0),
    is_holiday := some (r.is_holiday.getD 0) }

/-- The feature columns `['sales', 'price', 'day_of_week', 'month',
'is_weekend']` selected from a derived row. -/
def featureRow (r : DemandRow) : List ℚ :=
  [r.sales, r.price, (r.date.dayofweek : ℚ), (r.date.month : ℚ),
   if r.date.dayofweek = 5 ∨ r.date.dayofweek = 6 then (1 : ℚ) else 0]

/-- The sequence-building loop of `prepare_data`:
`for i in range(self.sequence_length, len(scaled_data))` collects the
window `scaled_data[i - sequence_length : i]` into `X` and the scaled sales
value `scaled_data[i, 0]` into `y`. -/
def makeXy (seq : ℕ) (scaled_data : List (List ℚ)) :
    List (List (List ℚ)) × List ℚ :=
  ((List.range' seq (scaled_data.length - seq)).map
     (fun i => (scaled_data.drop (i - seq)).take seq),
   (List.range' seq (scaled_data.length - seq)).map
     (fun i => (scaled_data.getD i []).getD 0 0))

/-- `DemandForecastingModel.prepare_data`, with the two mutations the
method performs made explicit: it returns the model state with the refit
scaler, the input frame with the derived columns written into it, and the
window/target arrays `X` and `y`. -/
def prepare_data (st : DemandForecastingModel) (data : List DemandRow) :
    DemandForecastingModel × List DemandRow × List (List (List ℚ)) × List ℚ :=
  let data2 := data.map deriveRow
  let feature_data := data2.map featureRow
  let ft := mm_fit_transform feature_data
  let Xy := makeXy st.sequence_length ft.2
  ({ st with scaler := ft.1 }, data2, Xy.1, Xy.2)

/-- The prediction loop of `DemandForecastingModel.predict`: each predicted
value is appended to the output and fed back by dropping the oldest row of
the window and appending the last row with its sales entry replaced by the
prediction (`np.roll` by -1 followed by overwriting the last row). -/
def predictLoop (f : List (List ℚ) → ℚ) : ℕ → List (List ℚ) → List ℚ
  | 0, _ => []
  | d + 1, window =>
      let pred := f window
      let new_row := (window.getLastD []).set 0 pred
      pred :: predictLoop f d (window.drop 1 ++ [new_row])

/-- The tail of `DemandForecastingModel.predict` after the last window has
been extracted: run the feedback loop, then inverse-transform the sales
column through the (just refit) scaler. -/
def predictFromWindow (st2 : DemandForecastingModel) (f : List (List ℚ) → ℚ)
    (last_sequence : List (List ℚ)) (days_ahead : ℕ) :
    Except String (DemandForecastingModel × List ℚ) :=
  let predictions := predictLoop f days_ahead last_sequence
  match st2.scaler.fitted with
  | none => Except.error "MinMaxScaler instance is not fitted yet"
  | some mm =>
    let dummy_array := predictions.map (fun p =>
      (List.range st2.features).map (fun j => if j = 0 then p else 0))
    let predictions_scaled :=
      (mm_inverse_transform mm.1 mm.2 dummy_array).map (fun r => r.getD 0 0)
    Except.ok (st2, predictions_scaled)

/-- The trained branch of `DemandForecastingModel.predict`: rebuild `X` via
`prepare_data` (refitting the scaler) and start from the last window
(`X[-1]` raises an IndexError when `X` is empty). -/
def predictTrained (st : DemandForecastingModel) (f : List (List ℚ) → ℚ)
    (data : List DemandRow) (days_ahead : ℕ) :
    Except String (DemandForecastingModel × List ℚ) :=
  if ((prepare_data st data).2.2.1).isEmpty then
    Except.error "index -1 is out of bounds for axis 0 with size 0"
  else
    predictFromWindow (prepare_data st data).1 f
      (((prepare_data st data).2.2.1).getLastD []) days_ahead

/-- `DemandForecastingModel.predict`: guard on the untrained model, then
run the trained branch.  Returns the updated object state (the refit
scaler) along with the prediction list. -/
def DemandForecastingModel.predict (st : DemandForecastingModel)
    (data : List DemandRow) (days_ahead : ℕ := 7) :
    Except String (DemandForecastingModel × List ℚ) :=
  match st.model with
  | none => Except.error "Model not trained. Call train() first."
  | some f => predictTrained st f data days_ahead

/-- The effects `save_model` performs after its guard. -/
inductive StorageEffect where
  | localWrite : String → StorageEffect
  | s3Upload : String → String → String → StorageEffect
deriving DecidableEq

/-- `DemandForecastingModel.save_model`: raises before any effect when the
model is untrained, otherwise writes the local file and uploads it. -/
def save_model (st : DemandForecastingModel) (s3_bucket model_key : String) :
    Except String Unit × List StorageEffect :=
  match st.model with
  | none => (Except.error "No model to save", [])
  | some _ =>
      (Except.ok (),
       [StorageEffect.localWrite "/tmp/demand_forecasting_model.h5",
        StorageEffect.s3Upload "/tmp/demand_forecasting_model.h5" s3_bucket model_key])

/-- The parsed request body of the demand-forecasting handler. -/
structure DemandRequest where
  data : List DemandRow
  days_ahead : Option ℕ

/-- The try-block of `lambda_handler` in `demand-forecasting.py`.
`parsed` is the outcome of `json.loads(event['body'])`, `loaded` the
outcome of downloading and loading the pre-trained model from S3. -/
def demand_pipeline (parsed : Except String DemandRequest)
    (loaded : Except String (List (List ℚ) → ℚ)) : Except String (List ℚ) := do
  let input_data ← parsed
  let f ← loaded
  let st := { mkDemandForecastingModel with model := some f }
  let r ← st.predict input_data.data (input_data.days_ahead.getD 7)
  pure r.2

/-- `lambda_handler` of `demand-forecasting.py`: the response envelope
around the try-block, every raised exception becoming a 500 response with
the exception text and a timestamp (`now` is
`datetime.now().isoformat()`). -/
def demand_lambda_handler (now : String) (parsed : Except String DemandRequest)
    (loaded : Except String (List (List ℚ) → ℚ)) : LambdaResponse :=
  match demand_pipeline parsed loaded with
  | Except.ok predictions =>
      { statusCode := 200,
        body := [("predictions", JVal.jarr (predictions.map JVal.jnum)),
                 ("model_version", JVal.jstr "1.0.0"),
                 ("timestamp", JVal.jstr now)] }
  | Except.error e =>
      { statusCode := 500,
        body := [("error", JVal.jstr e), ("timestamp", JVal.jstr now)] }

/-! ### General lemmas about the embedded operations -/

theorem getD_map_of_lt {α β : Type} (l : List α) (f : α → β) (i : ℕ)
    (hi : i < l.length) (d : β) (d2 : α) :
    (l.map f).getD i d = f (l.getD i d2) := by
  rw [List.getD_eq_getElem (l.map f) d (by simpa using hi),
      List.getD_eq_getElem l d2 hi]
  simp

theorem listMax_cons_cons (a b : ℚ) (t : List ℚ) :
    listMax (a :: b :: t) = max a (listMax (b :: t)) := rfl

theorem listMax_mem (l : List ℚ) (hl : l ≠ []) : listMax l ∈ l := by
  induction l with
  | nil => simp at hl
  | cons a t ih =>
    cases t with
    | nil => simp [listMax]
    | cons b u =>
      rw [listMax_cons_cons]
      rcases le_total a (listMax (b :: u)) with h | h
      · rw [max_eq_right h]
        exact List.mem_cons_of_mem a (ih (by simp))
      · rw [max_eq_left h]
        exact List.mem_cons_self a _

theorem le_listMax (l : List ℚ) (p : ℚ) (hp : p ∈ l) : p ≤ listMax l := by
  induction l with
  | nil => simp at hp
  | cons a t ih =>
    cases t with
    | nil =>
      simp only [List.mem_singleton] at hp
      simp [hp, listMax]
    | cons b u =>
      rw [listMax_cons_cons]
      rcases List.mem_cons.mp hp with rfl | hmem
      · exact le_max_left _ _
      · exact le_trans (ih hmem) (le_max_right _ _)

theorem mapME_ok {α β : Type} (g : α → Except String β) (l : List α)
    (out : List β) (h : mapME g l = Except.ok out) :
    out.length = l.length ∧
      ∀ i, i < l.length → ∀ dα : α, ∀ dβ : β,
        g (l.getD i dα) = Except.ok (out.getD i dβ) := by
  induction l generalizing out with
  | nil =>
    simp only [mapME] at h
    cases h
    simp
  | cons a t ih =>
    simp only [mapME, bind, Except.bind] at h
    cases hga : g a with
    | error e => rw [hga] at h; exact Except.noConfusion h
    | ok b =>
      rw [hga] at h
      cases hgt : mapME g t with
      | error e =>
        rw [hgt] at h
        exact Except.noConfusion h
      | ok bs =>
        rw [hgt] at h
        simp only [pure, Except.pure] at h
        cases h
        obtain ⟨hlen, hall⟩ := ih bs hgt
        constructor
        · simp [hlen]
        · intro i hi dα dβ
          cases i with
          | zero => simpa using hga
          | succ k =>
            have hk : k < t.length := by simpa using hi
            simpa using hall k hk dα dβ

theorem getD_range_map {β : Type} (n i : ℕ) (f : ℕ → β) (d : β) (hi : i < n) :
    ((List.range n).map f).getD i d = f i := by
  rw [getD_map_of_lt (List.range n) f i (by simpa using hi) d 0,
      List.getD_eq_getElem _ _ (by simpa using hi)]
  simp

theorem getD_zip_of_lt {α β : Type} (l1 : List α) (l2 : List β) (i : ℕ)
    (h1 : i < l1.length) (h2 : i < l2.length) (d1 : α) (d2 : β) :
    (l1.zip l2).getD i (d1, d2) = (l1.getD i d1, l2.getD i d2) := by
  induction l1 generalizing l2 i with
  | nil => simp at h1
  | cons a t ih =>
    cases l2 with
    | nil => simp at h2
    | cons b u =>
      cases i with
      | zero => simp [List.zip_cons_cons]
      | succ k =>
        have hk1 : k < t.length := by simpa using h1
        have hk2 : k < u.length := by simpa using h2
        simpa [List.zip_cons_cons] using ih u k hk1 hk2

/-! ### Claim C1 -/

/-- C1: for a trained three-member ensemble, `predict_ensemble` succeeds and
returns, for each sample `i`, a label of maximal vote count among the three
classifiers' predictions at `i`; in particular, whenever at least two of the
three classifiers agree on a label `v` for sample `i`, the ensemble
prediction at `i` is `v`. -/
theorem predict_ensemble_majority
    (st : HealthDiagnosisModel) (sc sel : List (List ℚ) → List (List ℚ))
    (n1 n2 n3 : String) (c1 c2 c3 : Classifier)
    (p1 p2 p3 : List (List ℚ) → List ℤ)
    (hm : st.models = [(n1, c1), (n2, c2), (n3, c3)])
    (hsc : st.scaler = some sc) (hsel : st.feature_selector = some sel)
    (h1 : c1.predictF = some p1) (h2 : c2.predictF = some p2)
    (h3 : c3.predictF = some p3) (X : List (List ℚ)) (i : ℕ)
    (hi : i < (p1 (sel (sc X))).length) :
    ∃ es : List ℤ,
      predict_ensemble st X = Except.ok es ∧
      es.length = (p1 (sel (sc X))).length ∧
      es.getD i 0 ∈ [(p1 (sel (sc X))).getD i 0, (p2 (sel (sc X))).getD i 0,
                     (p3 (sel (sc X))).getD i 0] ∧
      (∀ u : ℤ,
        [(p1 (sel (sc X))).getD i 0, (p2 (sel (sc X))).getD i 0,
         (p3 (sel (sc X))).getD i 0].count u
          ≤ [(p1 (sel (sc X))).getD i 0, (p2 (sel (sc X))).getD i 0,
             (p3 (sel (sc X))).getD i 0].count (es.getD i 0)) ∧
      (∀ v : ℤ,
        ((p1 (sel (sc X))).getD i 0 = v ∧ (p2 (sel (sc X))).getD i 0 = v) ∨
        ((p1 (sel (sc X))).getD i 0 = v ∧ (p3 (sel (sc X))).getD i 0 = v) ∨
        ((p2 (sel (sc X))).getD i 0 = v ∧ (p3 (sel (sc X))).getD i 0 = v) →
        es.getD i 0 = v) := by
  obtain ⟨ms, sca, fsel, lenc⟩ := st
  simp only at hm hsc hsel
  subst hm hsc hsel
  obtain ⟨pf1, ppb1, hb1⟩ := c1
  obtain ⟨pf2, ppb2, hb2⟩ := c2
  obtain ⟨pf3, ppb3, hb3⟩ := c3
  simp only at h1 h2 h3
  subst h1 h2 h3
  have hpe : predict_ensemble
      ⟨[(n1, ⟨some p1, ppb1, hb1⟩), (n2, ⟨some p2, ppb2, hb2⟩),
        (n3, ⟨some p3, ppb3, hb3⟩)], some sc, some sel, lenc⟩ X
      = Except.ok ((List.range ((p1 (sel (sc X))).length)).map (fun s =>
          majorityVote [(p1 (sel (sc X))).getD s 0, (p2 (sel (sc X))).getD s 0,
                        (p3 (sel (sc X))).getD s 0])) := rfl
  refine ⟨_, hpe, by simp, ?_, ?_, ?_⟩
  · rw [getD_range_map _ _ _ _ hi]
    exact (majorityVote_spec _ (by simp)).1
  · intro u
    rw [getD_range_map _ _ _ _ hi]
    exact (majorityVote_spec _ (by simp)).2 u
  · intro v hv
    rw [getD_range_map _ _ _ _ hi]
    exact majorityVote_two_of_three _ _ _ v hv

/-- A classifier that constantly predicts `lbl` (witness construction). -/
def w1c (lbl : ℤ) : Classifier := ⟨some (fun _ => [lbl]), none, true⟩

/-- A fitted ensemble in which two members predict 3 and one predicts 5. -/
def w1Model : HealthDiagnosisModel :=
  ⟨[("random_forest", w1c 3), ("gradient_boosting", w1c 3), ("xgboost", w1c 5)],
   some id, some id, none⟩

/-- Witness for C1 at a concrete fitted model and input. -/
theorem predict_ensemble_majority_witness :
    predict_ensemble w1Model [[(1 : ℚ)]] = Except.ok [(3 : ℤ)] := by
  obtain ⟨es, he, hlen, -, -, htwo⟩ :=
    predict_ensemble_majority w1Model id id
      "random_forest" "gradient_boosting" "xgboost"
      (w1c 3) (w1c 3) (w1c 5)
      (fun _ => [3]) (fun _ => [3]) (fun _ => [5])
      rfl rfl rfl rfl rfl rfl [[(1 : ℚ)]] 0 (by decide)

  have h3 : es.getD 0 0 = 3 := htwo 3 (Or.inl ⟨rfl, rfl⟩)
  rw [he]
  congr 1
  cases es with
  | nil => simp at hlen
  | cons x t =>
    cases t with
    | nil => simpa using h3
    | cons y u => simp at hlen

/-! ### Claim C2 -/

theorem matMean_three (m1 m2 m3 : List (List ℚ)) (i j : ℕ)
    (hi : i < m1.length) (hj : j < (m1.getD i []).length) :
    (matMean [m1, m2, m3]).length = m1.length ∧
    ((matMean [m1, m2, m3]).getD i []).length = (m1.getD i []).length ∧
    ((matMean [m1, m2, m3]).getD i []).getD j 0
      = ((m1.getD i []).getD j 0 + (m2.getD i []).getD j 0
          + (m3.getD i []).getD j 0) / 3 := by
  have h0 : matMean [m1, m2, m3]
      = (List.range m1.length).map (fun a =>
          (List.range ((m1.getD a []).length)).map (fun b =>
            ((m1.getD a []).getD b 0 + ((m2.getD a []).getD b 0
              + ((m3.getD a []).getD b 0 + 0))) / ((3 : ℕ) : ℚ))) := rfl
  rw [h0]
  refine ⟨by simp, ?_, ?_⟩
  · rw [getD_range_map _ _ _ _ hi]
    simp
  · rw [getD_range_map _ _ _ _ hi, getD_range_map _ _ _ _ hj]
    push_cast
    ring

/-- C2: for a trained three-member ensemble (each member exposing
`predict_proba`), `predict_proba_ensemble` succeeds and its output is the
element-wise arithmetic mean of the three members' class-probability
matrices: entry `(i, j)` equals the sum of the three probabilities at
`(i, j)` divided by three. -/
theorem predict_proba_ensemble_mean
    (st : HealthDiagnosisModel) (sc sel : List (List ℚ) → List (List ℚ))
    (n1 n2 n3 : String) (c1 c2 c3 : Classifier)
    (q1 q2 q3 : List (List ℚ) → List (List ℚ))
    (hm : st.models = [(n1, c1), (n2, c2), (n3, c3)])
    (hsc : st.scaler = some sc) (hsel : st.feature_selector = some sel)
    (hb1 : c1.has_predict_proba = true) (hb2 : c2.has_predict_proba = true)
    (hb3 : c3.has_predict_proba = true)
    (h1 : c1.predict_proba = some q1) (h2 : c2.predict_proba = some q2)
    (h3 : c3.predict_proba = some q3) (X : List (List ℚ)) (i j : ℕ)
    (hi : i < (q1 (sel (sc X))).length)
    (hj : j < ((q1 (sel (sc X))).getD i []).length) :
    ∃ P : List (List ℚ),
      predict_proba_ensemble st X = Except.ok P ∧
      P.length = (q1 (sel (sc X))).length ∧
      (P.getD i []).length = ((q1 (sel (sc X))).getD i []).length ∧
      (P.getD i []).getD j 0
        = (((q1 (sel (sc X))).getD i []).getD j 0
            + ((q2 (sel (sc X))).getD i []).getD j 0
            + ((q3 (sel (sc X))).getD i []).getD j 0) / 3 := by
  obtain ⟨ms, sca, fsel, lenc⟩ := st
  simp only at hm hsc hsel
  subst hm hsc hsel
  obtain ⟨pf1, ppb1, hpb1⟩ := c1
  obtain ⟨pf2, ppb2, hpb2⟩ := c2
  obtain ⟨pf3, ppb3, hpb3⟩ := c3
  simp only at h1 h2 h3 hb1 hb2 hb3
  subst h1 h2 h3 hb1 hb2 hb3
  have hpe : predict_proba_ensemble
      ⟨[(n1, ⟨pf1, some q1, true⟩), (n2, ⟨pf2, some q2, true⟩),
        (n3, ⟨pf3, some q3, true⟩)], some sc, some sel, lenc⟩ X
      = Except.ok (matMean [q1 (sel (sc X)), q2 (sel (sc X)), q3 (sel (sc X))]) := rfl
  obtain ⟨hl, hrow, hentry⟩ :=
    matMean_three (q1 (sel (sc X))) (q2 (sel (sc X))) (q3 (sel (sc X))) i j hi hj
  exact ⟨_, hpe, hl, hrow, hentry⟩

/-- A classifier with a constant class-probability output (witness
construction). -/
def w2c (row : List ℚ) : Classifier := ⟨none, some (fun _ => [row]), true⟩

/-- A fitted ensemble whose members output probabilities 1/2, 1/4, 3/4 for
class 0 of the single sample. -/
def w2Model : HealthDiagnosisModel :=
  ⟨[("random_forest", w2c [1/2, 1/2]), ("gradient_boosting", w2c [1/4, 3/4]),
    ("xgboost", w2c [3/4, 1/4])], some id, some id, none⟩

/-- Witness for C2 at a concrete fitted model and input: the averaged
probability at entry (0, 0) is (1/2 + 1/4 + 3/4) / 3 = 1/2. -/
theorem predict_proba_ensemble_mean_witness :
    ∃ P : List (List ℚ),
      predict_proba_ensemble w2Model [[(1 : ℚ)]] = Except.ok P ∧
      (P.getD 0 []).getD 0 0 = 1/2 := by
  obtain ⟨P, hP, -, -, hentry⟩ :=
    predict_proba_ensemble_mean w2Model id id
      "random_forest" "gradient_boosting" "xgboost"
      (w2c [1/2, 1/2]) (w2c [1/4, 3/4]) (w2c [3/4, 1/4])
      (fun _ => [[1/2, 1/2]]) (fun _ => [[1/4, 3/4]]) (fun _ => [[3/4, 1/4]])
      rfl rfl rfl rfl rfl rfl rfl rfl rfl [[(1 : ℚ)]] 0 0 (by decide) (by decide)
  refine ⟨P, hP, ?_⟩
  rw [hentry]
  norm_num

/-! ### Claim C3 -/

/-- C3: neither lambda handler propagates an exception.  Whatever the
outcomes of the external steps (parsing, S3 loading) and the model
invocation: whenever the try-block raises, the handler returns a 500
response whose JSON body holds the raised message under `error` together
with the timestamp, and whenever the try-block succeeds it returns a 200
response. -/
theorem lambda_handlers_catch_all (now : String)
    (hp : Except String (List PatientRow))
    (dp : Except String DemandRequest)
    (dl : Except String (List (List ℚ) → ℚ)) :
    (∀ e, health_pipeline hp = Except.error e →
      (health_lambda_handler now hp).statusCode = 500 ∧
      (health_lambda_handler now hp).body
        = [("error", JVal.jstr e), ("timestamp", JVal.jstr now)]) ∧
    (∀ r, health_pipeline hp = Except.ok r →
      (health_lambda_handler now hp).statusCode = 200) ∧
    (∀ e, demand_pipeline dp dl = Except.error e →
      (demand_lambda_handler now dp dl).statusCode = 500 ∧
      (demand_lambda_handler now dp dl).body
        = [("error", JVal.jstr e), ("timestamp", JVal.jstr now)]) ∧
    (∀ r, demand_pipeline dp dl = Except.ok r →
      (demand_lambda_handler now dp dl).statusCode = 200) := by
  refine ⟨fun e he => ?_, fun r hr => ?_, fun e he => ?_, fun r hr => ?_⟩
  · exact ⟨by simp [health_lambda_handler, he],
           by simp [health_lambda_handler, he]⟩
  · simp [health_lambda_handler, hr]
  · exact ⟨by simp [demand_lambda_handler, he],
           by simp [demand_lambda_handler, he]⟩
  · simp [demand_lambda_handler, hr]

/-- A demand row for the C3 witness request. -/
def c3Row : DemandRow := ⟨⟨1, 6⟩, 120, 40, none, none, none, none⟩

/-- A parsed demand request with enough rows (31 > the default sequence
length 30) for the loaded model to predict successfully. -/
def wRequest : DemandRequest := ⟨List.replicate 31 c3Row, some 3⟩

/-- Witness for C3: a failed parse yields the 500 envelope carrying the
raised message and the timestamp, and a successful run (demand handler with
a loaded model on a sufficient frame) yields 200. -/
theorem lambda_handlers_catch_all_witness :
    (health_lambda_handler "t0" (Except.error "Expecting value")).statusCode = 500 ∧
    (health_lambda_handler "t0" (Except.error "Expecting value")).body
      = [("error", JVal.jstr "Expecting value"), ("timestamp", JVal.jstr "t0")] ∧
    (demand_lambda_handler "t0" (Except.ok wRequest)
        (Except.ok (fun _ => 0))).statusCode = 200 := by
  obtain ⟨h500, -, -, h200⟩ :=
    lambda_handlers_catch_all "t0" (Except.error "Expecting value")
      (Except.ok wRequest) (Except.ok (fun _ => 0))
  obtain ⟨hs, hb⟩ := h500 "Expecting value" rfl
  have hex : ∃ ps, demand_pipeline (Except.ok wRequest) (Except.ok (fun _ => 0))
      = Except.ok ps := ⟨_, rfl⟩
  obtain ⟨ps, hps⟩ := hex
  exact ⟨hs, hb, h200 ps hps⟩

/-! ### Claim C4 -/

/-- A well-formed patient payload, as in the module's own example usage. -/
def samplePatient : PatientRow :=
  ⟨some 42, some "male", some "chest pain, shortness of breath, dizziness",
   some "hypertension", some (493/5), none, none, none, none⟩

/-- C4 (refutation of the claimed behaviour on the code as written): for a
valid JSON patient payload the health `lambda_handler` does NOT return a
200 diagnosis — it returns 500.  The handler constructs a fresh
`HealthDiagnosisModel` and never loads the trained one (the `load_model`
call is commented out), so the unfitted scaler raises scikit-learn's
NotFittedError inside `predict_ensemble`, which the blanket `except` turns
into a 500 error envelope. -/
theorem health_handler_valid_payload_returns_500 :
    (health_lambda_handler "2026-10-12T00:00:00" (Except.ok [samplePatient])).statusCode
        = 500 ∧
    (health_lambda_handler "2026-10-12T00:00:00" (Except.ok [samplePatient])).body
        = [("error", JVal.jstr "StandardScaler instance is not fitted yet"),
           ("timestamp", JVal.jstr "2026-10-12T00:00:00")] :=
  ⟨rfl, rfl⟩

/-! ### Claim C5 -/

/-- A demand row whose derived columns are absent, as in a freshly loaded
frame. -/
def dRow : DemandRow := ⟨⟨2, 7⟩, 100, 50, none, none, none, none⟩

/-- C5 (counterexample): `DemandForecastingModel.prepare_data` is NOT
stateless and does NOT leave its input unchanged: on a one-row frame it
both fits the model's scaler (the scaler state changes from unfitted to
fitted) and writes the derived columns into the input rows. -/
theorem prepare_data_not_pure :
    ¬ ((prepare_data mkDemandForecastingModel [dRow]).1.scaler.fitted
          = mkDemandForecastingModel.scaler.fitted
        ∧ (prepare_data mkDemandForecastingModel [dRow]).2.1 = [dRow]) := by
  decide

/-- C5 (amended): `HealthDiagnosisModel.prepare_features` leaves the model
state unchanged and its output does not depend on the model state, and
`DemandForecastingModel.prepare_data` is deterministic — its `X`/`y` output
does not depend on the model or scaler state, and a second call on the
frame mutated by the first call returns the same `X`/`y`; but
`prepare_data` refits the scaler and writes derived columns into its input
(see the counterexample). -/
theorem prepare_stateless_amended :
    (∀ (st st2 : HealthDiagnosisModel) (d : List PatientRow),
      (prepare_features st d).1 = st ∧
      (prepare_features st d).2 = (prepare_features st2 d).2) ∧
    (∀ (st : DemandForecastingModel) (d : List DemandRow),
      (prepare_data st ((prepare_data st d).2.1)).2.2 = (prepare_data st d).2.2 ∧
      (prepare_data st d).2.2
        = (prepare_data ⟨st.sequence_length, st.features, none, ⟨none⟩⟩ d).2.2) := by
  refine ⟨fun st st2 d => ⟨rfl, rfl⟩, fun st d => ⟨?_, rfl⟩⟩
  have hfd : (((d.map deriveRow).map deriveRow).map featureRow)
      = ((d.map deriveRow).map featureRow) := by
    simp only [List.map_map]
    exact congrArg (fun g => d.map g) (funext fun r => rfl)
  show makeXy st.sequence_length
        (mm_fit_transform (((d.map deriveRow).map deriveRow).map featureRow)).2
      = makeXy st.sequence_length
        (mm_fit_transform ((d.map deriveRow).map featureRow)).2
  rw [hfd]

/-! ### Claim C6 -/

theorem any_hasSub_iff (ks : List String) (t : String) :
    ks.any (fun k => hasSub k.data (lowerStr t)) = true
      ↔ ∃ k ∈ ks, SubOf k.data (lowerStr t) := by
  rw [List.any_eq_true]
  constructor
  · rintro ⟨k, hk, hs⟩
    exact ⟨k, hk, (hasSub_iff _ _).mp hs⟩
  · rintro ⟨k, hk, hs⟩
    exact ⟨k, hk, (hasSub_iff _ _).mpr hs⟩

/-- C6: `preprocess_symptoms` returns exactly the 15 fixed symptom
categories of the keyword table, in table order, and the flag of the i-th
category is 1 if and only if some keyword of that category occurs as a
contiguous substring of the lowercased input text, and 0 otherwise. -/
theorem preprocess_symptoms_flags (t : String) :
    (preprocess_symptoms t).map Prod.fst = symptom_keywords.map Prod.fst ∧
    (preprocess_symptoms t).length = 15 ∧
    ∀ i, i < (preprocess_symptoms t).length →
      ((preprocess_symptoms t).getD i ("", 0)).1
          = (symptom_keywords.getD i ("", [])).1 ∧
      (((preprocess_symptoms t).getD i ("", 0)).2 = 1
          ↔ ∃ k ∈ (symptom_keywords.getD i ("", [])).2, SubOf k.data (lowerStr t)) ∧
      (((preprocess_symptoms t).getD i ("", 0)).2 = 0
          ↔ ¬ ∃ k ∈ (symptom_keywords.getD i ("", [])).2, SubOf k.data (lowerStr t)) := by
  have hkeys : (preprocess_symptoms t).map Prod.fst = symptom_keywords.map Prod.fst := by
    unfold preprocess_symptoms
    rw [List.map_map]
    exact congrArg (fun g => symptom_keywords.map g) (funext fun p => rfl)
  refine ⟨hkeys, by simp [preprocess_symptoms, symptom_keywords], ?_⟩
  intro i hi
  have hi2 : i < symptom_keywords.length := by
    have : (preprocess_symptoms t).length = symptom_keywords.length := by
      simp [preprocess_symptoms]
    rwa [this] at hi
  have hget : (preprocess_symptoms t).getD i ("", 0)
      = ((symptom_keywords.getD i ("", [])).1,
         if (symptom_keywords.getD i ("", [])).2.any
              (fun k => hasSub k.data (lowerStr t)) then 1 else 0) := by
    unfold preprocess_symptoms
    exact getD_map_of_lt _ _ i hi2 _ ("", [])
  rw [hget]
  refine ⟨rfl, ?_, ?_⟩
  · rw [← any_hasSub_iff]
    by_cases h : (symptom_keywords.getD i ("", [])).2.any
        (fun k => hasSub k.data (lowerStr t)) = true <;> simp [h]
  · rw [← any_hasSub_iff]
    by_cases h : (symptom_keywords.getD i ("", [])).2.any
        (fun k => hasSub k.data (lowerStr t)) = true <;> simp [h]

/-- Witness for C6: on the text "High Fever and dizziness" the first
category (fever) is flagged and a witnessing keyword occurrence exists. -/
theorem preprocess_symptoms_flags_witness :
    ((preprocess_symptoms "High Fever and dizziness").getD 0 ("", 0)).2 = 1 ∧
    ∃ k ∈ (symptom_keywords.getD 0 ("", [])).2,
      SubOf k.data (lowerStr "High Fever and dizziness") := by
  have h := preprocess_symptoms_flags "High Fever and dizziness"
  have hflag : ((preprocess_symptoms "High Fever and dizziness").getD 0 ("", 0)).2
      = 1 := by decide
  have h0 := (h.2.2 0 (by rw [h.2.1]; omega)).2.1
  exact ⟨hflag, h0.mp hflag⟩

/-! ### Claim C7 -/

theorem getD_range_map2 {β : Type} (s n j : ℕ) (f : ℕ → β) (d : β) (hj : j < n) :
    ((List.range' s n).map f).getD j d = f (s + j) := by
  rw [getD_map_of_lt (List.range' s n) f j (by simpa using hj) d 0,
      List.getD_eq_getElem _ _ (by simpa using hj)]
  simp [List.getElem_range']

/-- C7: for a frame with at least `sequence_length` rows, `prepare_data`
returns `X` and `y` of equal length `n - sequence_length`; `X[j]` is the
window of `sequence_length` consecutive scaled feature rows ending just
before position `sequence_length + j`, and `y[j]` is the scaled sales
value (feature column 0) at position `sequence_length + j`. -/
theorem prepare_data_windows (st : DemandForecastingModel) (data : List DemandRow)
    (_hn : st.sequence_length ≤ data.length) (j : ℕ)
    (hj : j < data.length - st.sequence_length) :
    (prepare_data st data).2.2.1.length = data.length - st.sequence_length ∧
    (prepare_data st data).2.2.2.length = data.length - st.sequence_length ∧
    (prepare_data st data).2.2.1.getD j []
      = (((mm_fit_transform ((data.map deriveRow).map featureRow)).2.drop j).take
          st.sequence_length) ∧
    (prepare_data st data).2.2.2.getD j 0
      = ((mm_fit_transform ((data.map deriveRow).map featureRow)).2.getD
          (st.sequence_length + j) []).getD 0 0 := by
  have hslen : (mm_fit_transform ((data.map deriveRow).map featureRow)).2.length
      = data.length := by
    simp [mm_fit_transform]
  have hX : (prepare_data st data).2.2.1
      = (List.range' st.sequence_length (data.length - st.sequence_length)).map
          (fun i => ((mm_fit_transform ((data.map deriveRow).map featureRow)).2.drop
            (i - st.sequence_length)).take st.sequence_length) := by
    show (makeXy st.sequence_length
        (mm_fit_transform ((data.map deriveRow).map featureRow)).2).1 = _
    unfold makeXy
    rw [hslen]
  have hY : (prepare_data st data).2.2.2
      = (List.range' st.sequence_length (data.length - st.sequence_length)).map
          (fun i => ((mm_fit_transform ((data.map deriveRow).map featureRow)).2.getD
            i []).getD 0 0) := by
    show (makeXy st.sequence_length
        (mm_fit_transform ((data.map deriveRow).map featureRow)).2).2 = _
    unfold makeXy
    rw [hslen]
  refine ⟨by rw [hX]; simp, by rw [hY]; simp, ?_, ?_⟩
  · rw [hX, getD_range_map2 _ _ _ _ _ hj]
    have harg : st.sequence_length + j - st.sequence_length = j := by omega
    rw [harg]
  · rw [hY, getD_range_map2 _ _ _ _ _ hj]

/-- A second demand row for the C7 witness. -/
def dRow2 : DemandRow := ⟨⟨5, 8⟩, 200, 60, some 1, none, none, none⟩

/-- Witness for C7 with sequence length 1 on a two-row frame. -/
theorem prepare_data_windows_witness :
    (prepare_data (mkDemandForecastingModel 1 5) [dRow, dRow2]).2.2.1.length
        = [dRow, dRow2].length - (mkDemandForecastingModel 1 5).sequence_length ∧
    (prepare_data (mkDemandForecastingModel 1 5) [dRow, dRow2]).2.2.2.length
        = [dRow, dRow2].length - (mkDemandForecastingModel 1 5).sequence_length ∧
    (prepare_data (mkDemandForecastingModel 1 5) [dRow, dRow2]).2.2.1.getD 0 []
      = (((mm_fit_transform (([dRow, dRow2].map deriveRow).map featureRow)).2.drop 0).take
          (mkDemandForecastingModel 1 5).sequence_length) ∧
    (prepare_data (mkDemandForecastingModel 1 5) [dRow, dRow2]).2.2.2.getD 0 0
      = ((mm_fit_transform (([dRow, dRow2].map deriveRow).map featureRow)).2.getD
          ((mkDemandForecastingModel 1 5).sequence_length + 0) []).getD 0 0 :=
  prepare_data_windows (mkDemandForecastingModel 1 5) [dRow, dRow2]
    (by decide) 0 (by decide)

/-! ### Claim C8 -/

/-- C8: with an untrained model (`model is None`), `predict` and
`save_model` raise a ValueError before any prediction, local write or
upload happens (the effect list of `save_model` stays empty); and with an
empty models collection, `predict_ensemble` and `predict_proba_ensemble`
raise a ValueError. -/
theorem untrained_guards (st : DemandForecastingModel) (hst : st.model = none)
    (data : List DemandRow) (days_ahead : ℕ) (s3_bucket model_key : String)
    (sh : HealthDiagnosisModel) (hsh : sh.models = []) (X : List (List ℚ)) :
    st.predict data days_ahead
        = Except.error "Model not trained. Call train() first." ∧
    (save_model st s3_bucket model_key).1 = Except.error "No model to save" ∧
    (save_model st s3_bucket model_key).2 = [] ∧
    predict_ensemble sh X = Except.error "Models not trained" ∧
    predict_proba_ensemble sh X = Except.error "Models not trained" := by
  obtain ⟨seq, feat, mdl, scl⟩ := st
  simp only at hst
  subst hst
  obtain ⟨ms, sca, fsel, lenc⟩ := sh
  simp only at hsh
  subst hsh
  exact ⟨rfl, rfl, rfl, rfl, rfl⟩

/-- A health model state with an emptied models collection. -/
def emptiedHealthModel : HealthDiagnosisModel := ⟨[], none, none, none⟩

/-- Witness for C8 at concrete states and inputs. -/
theorem untrained_guards_witness :
    mkDemandForecastingModel.predict [dRow] 7
        = Except.error "Model not trained. Call train() first." ∧
    (save_model mkDemandForecastingModel "bharat-ai-hub-models"
        "demand-forecasting/model.h5").1 = Except.error "No model to save" ∧
    (save_model mkDemandForecastingModel "bharat-ai-hub-models"
        "demand-forecasting/model.h5").2 = [] ∧
    predict_ensemble emptiedHealthModel [[1]] = Except.error "Models not trained" ∧
    predict_proba_ensemble emptiedHealthModel [[1]]
        = Except.error "Models not trained" :=
  untrained_guards mkDemandForecastingModel rfl [dRow] 7 "bharat-ai-hub-models"
    "demand-forecasting/model.h5" emptiedHealthModel rfl [[1]]

/-! ### Claim C9 -/

theorem bind_ok {α β : Type} (x : Except String α) (g : α → Except String β)
    (b : β) (h : (x >>= g) = Except.ok b) :
    ∃ a, x = Except.ok a ∧ g a = Except.ok b := by
  cases x with
  | error e =>
    simp only [bind, Except.bind] at h
    exact Except.noConfusion h
  | ok a =>
    refine ⟨a, rfl, ?_⟩
    simpa only [bind, Except.bind] using h

theorem diagnoseOne_ok (st : HealthDiagnosisModel) (pp : ℤ × List ℚ)
    (r : DiagnosisResult) (h : diagnoseOne st pp = Except.ok r) :
    r.confidence = listMax pp.2 ∧
    r.risk_level = (if r.confidence > 4/5 then "high"
                    else if r.confidence > 3/5 then "medium" else "low") := by
  unfold diagnoseOne at h
  obtain ⟨d, hd, h2⟩ := bind_ok _ _ _ h
  obtain ⟨tds, htds, h3⟩ := bind_ok _ _ _ h2
  simp only [pure, Except.pure] at h3
  cases h3
  exact ⟨rfl, rfl⟩

/-- C10: whenever `diagnose` succeeds, each result's `confidence` equals the
maximum entry of that patient's ensemble class-probability row (it bounds
every entry of the row and, for a nonempty row, belongs to it), and
`risk_level` is "high" exactly when confidence > 0.8, "medium" when
0.6 < confidence ≤ 0.8, and "low" otherwise. -/
theorem diagnose_confidence_risk (st : HealthDiagnosisModel)
    (patient_data : List PatientRow) (results : List DiagnosisResult)
    (h : diagnose st patient_data = Except.ok results) :
    ∃ predictions probabilities,
      predict_ensemble st
          (((prepare_features st patient_data).2).map (fun row => row.map Prod.snd))
        = Except.ok predictions ∧
      predict_proba_ensemble st
          (((prepare_features st patient_data).2).map (fun row => row.map Prod.snd))
        = Except.ok probabilities ∧
      results.length = (predictions.zip probabilities).length ∧
      ∀ i, i < results.length →
        (results.getD i ⟨"", 0, [], ""⟩).confidence
            = listMax (probabilities.getD i []) ∧
        (∀ p ∈ probabilities.getD i [],
          p ≤ (results.getD i ⟨"", 0, [], ""⟩).confidence) ∧
        (probabilities.getD i [] ≠ [] →
          (results.getD i ⟨"", 0, [], ""⟩).confidence ∈ probabilities.getD i []) ∧
        (results.getD i ⟨"", 0, [], ""⟩).risk_level
          = (if (results.getD i ⟨"", 0, [], ""⟩).confidence > 4/5 then "high"
             else if (results.getD i ⟨"", 0, [], ""⟩).confidence > 3/5 then "medium"
             else "low") := by
  unfold diagnose at h
  obtain ⟨predictions, hp, h2⟩ := bind_ok _ _ _ h
  obtain ⟨probabilities, hq, h3⟩ := bind_ok _ _ _ h2
  obtain ⟨hlen, hall⟩ := mapME_ok _ _ _ h3
  refine ⟨predictions, probabilities, hp, hq, hlen, ?_⟩
  intro i hi
  have hizip : i < (predictions.zip probabilities).length := by
    rw [← hlen]
    exact hi
  have hip : i < predictions.length := by
    rw [List.length_zip] at hizip
    exact lt_of_lt_of_le hizip (min_le_left _ _)
  have hiq : i < probabilities.length := by
    rw [List.length_zip] at hizip
    exact lt_of_lt_of_le hizip (min_le_right _ _)
  have helem := hall i hizip ((0 : ℤ), ([] : List ℚ)) ⟨"", 0, [], ""⟩
  rw [getD_zip_of_lt predictions probabilities i hip hiq 0 []] at helem
  obtain ⟨hconf, hrisk⟩ := diagnoseOne_ok st _ _ helem
  refine ⟨hconf, ?_, ?_, hrisk⟩
  · intro p hpmem
    rw [hconf]
    exact le_listMax _ p hpmem
  · intro hne
    rw [hconf]
    exact listMax_mem _ hne

/-- `mapME` of an operation that always succeeds is the successful map. -/
theorem mapME_pure {α β : Type} (g : α → β) (l : List α) :
    mapME (fun a => Except.ok (g a)) l = Except.ok (l.map g) := by
  induction l with
  | nil => rfl
  | cons a t ih =>
    simp only [mapME, ih, bind, Except.bind, pure, Except.pure, List.map_cons]

/-- On a model with a fitted label encoder, `diagnoseOne` always succeeds,
with the result fields spelled out. -/
theorem diagnoseOne_fitted (st : HealthDiagnosisModel) (enc : ℤ → String)
    (henc : st.label_encoder = some enc) (pred : ℤ) (proba : List ℚ) :
    diagnoseOne st (pred, proba) = Except.ok
      ⟨enc pred, listMax proba,
       (((argsortAsc proba).drop (proba.length - 3)).reverse).map
         (fun idx => ⟨enc (Int.ofNat idx), proba.getD idx 0⟩),
       if listMax proba > 4/5 then "high"
       else if listMax proba > 3/5 then "medium" else "low"⟩ := by
  obtain ⟨ms, sca, fsel, lenc⟩ := st
  simp only at henc
  subst henc
  have hstep : diagnoseOne ⟨ms, sca, fsel, some enc⟩ (pred, proba)
      = (mapME (fun idx => Except.ok
            (DiagnosisEntry.mk (enc (Int.ofNat idx)) (proba.getD idx 0)))
          (((argsortAsc proba).drop (proba.length - 3)).reverse)) >>=
        (fun top_diagnoses => Except.ok (DiagnosisResult.mk (enc pred)
          (listMax proba) top_diagnoses
          (if listMax proba > 4/5 then "high"
           else if listMax proba > 3/5 then "medium" else "low"))) := rfl
  rw [hstep, mapME_pure]
  rfl

/-- A classifier whose fitted estimator predicts label 0 for every sample
and assigns probabilities (7/10, 3/10) to the two classes of each sample. -/
def w10c : Classifier :=
  ⟨some (fun X => X.map (fun _ => 0)),
   some (fun X => X.map (fun _ => [7/10, 3/10])), true⟩

/-- A fully fitted health model for the C10 witness. -/
def w10Model : HealthDiagnosisModel :=
  ⟨[("random_forest", w10c), ("gradient_boosting", w10c), ("xgboost", w10c)],
   some id, some id, some (fun _ => "flu")⟩

/-- A patient row with every column absent. -/
def w10Patient : PatientRow := ⟨none, none, none, none, none, none, none, none, none⟩

/-- The concrete diagnosis result of `w10Model` on `w10Patient`. -/
def w10Results : List DiagnosisResult :=
  [⟨"flu", 7/10, [⟨"flu", 7/10⟩, ⟨"flu", 3/10⟩], "medium"⟩]

/-- Witness for C10 on a fully fitted model with a nonempty two-class
probability row: `diagnose` succeeds, the ensemble probabilities are
(7/10, 3/10), the confidence 7/10 is their maximum (it belongs to the row
and bounds it), and the risk level is "medium" since 0.6 < 7/10 ≤ 0.8. -/
theorem diagnose_confidence_risk_witness :
    diagnose w10Model [w10Patient] = Except.ok w10Results ∧
    predict_proba_ensemble w10Model
        (((prepare_features w10Model [w10Patient]).2).map
          (fun row => row.map Prod.snd))
      = Except.ok [[(7 : ℚ)/10, 3/10]] ∧
    (w10Results.getD 0 ⟨"", 0, [], ""⟩).confidence = listMax [(7 : ℚ)/10, 3/10] ∧
    (w10Results.getD 0 ⟨"", 0, [], ""⟩).confidence ∈ [(7 : ℚ)/10, 3/10] ∧
    (∀ p ∈ [(7 : ℚ)/10, 3/10],
      p ≤ (w10Results.getD 0 ⟨"", 0, [], ""⟩).confidence) ∧
    (w10Results.getD 0 ⟨"", 0, [], ""⟩).risk_level = "medium" := by
  have hmax : listMax [(7 : ℚ)/10, 3/10] = 7/10 := by
    rw [listMax_cons_cons]
    show max ((7 : ℚ)/10) ((3 : ℚ)/10) = 7/10
    exact max_eq_left (by norm_num)
  have hsort : argsortAsc [(7 : ℚ)/10, 3/10] = [1, 0] := by
    show insIdx [(7 : ℚ)/10, 3/10] 1 [0] = [1, 0]
    rw [show insIdx [(7 : ℚ)/10, 3/10] 1 [0]
        = if [(7 : ℚ)/10, 3/10].getD 1 0 < [(7 : ℚ)/10, 3/10].getD 0 0
          then 1 :: 0 :: [] else 0 :: insIdx [(7 : ℚ)/10, 3/10] 1 [] from rfl]
    rw [if_pos (show [(7 : ℚ)/10, 3/10].getD 1 0 < [(7 : ℚ)/10, 3/10].getD 0 0 by
      show (3 : ℚ)/10 < 7/10
      norm_num)]
  have hq : predict_proba_ensemble w10Model
      (((prepare_features w10Model [w10Patient]).2).map
        (fun row => row.map Prod.snd))
      = Except.ok [[(7 : ℚ)/10, 3/10]] := by
    have h0 : predict_proba_ensemble w10Model
        (((prepare_features w10Model [w10Patient]).2).map
          (fun row => row.map Prod.snd))
        = Except.ok (matMean [[[(7 : ℚ)/10, 3/10]], [[(7 : ℚ)/10, 3/10]],
            [[(7 : ℚ)/10, 3/10]]]) := rfl
    rw [h0]
    congr 1
    show [[((7 : ℚ)/10 + ((7 : ℚ)/10 + ((7 : ℚ)/10 + 0))) / ((3 : ℕ) : ℚ),
           ((3 : ℚ)/10 + ((3 : ℚ)/10 + ((3 : ℚ)/10 + 0))) / ((3 : ℕ) : ℚ)]]
        = [[(7 : ℚ)/10, 3/10]]
    push_cast
    norm_num
  have hone : diagnoseOne w10Model ((0 : ℤ), [(7 : ℚ)/10, 3/10])
      = Except.ok ⟨"flu", 7/10, [⟨"flu", 7/10⟩, ⟨"flu", 3/10⟩], "medium"⟩ := by
    rw [diagnoseOne_fitted w10Model (fun _ => "flu") rfl 0 [(7 : ℚ)/10, 3/10]]
    rw [hmax, hsort]
    rw [if_neg (show ¬ ((7 : ℚ)/10 > 4/5) by norm_num),
        if_pos (show (7 : ℚ)/10 > 3/5 by norm_num)]
    rfl
  have hdiag : diagnose w10Model [w10Patient] = Except.ok w10Results := by
    have h1 : diagnose w10Model [w10Patient]
        = (predict_proba_ensemble w10Model
            (((prepare_features w10Model [w10Patient]).2).map
              (fun row => row.map Prod.snd))) >>=
          (fun probabilities =>
            mapME (diagnoseOne w10Model) (List.zip [(0 : ℤ)] probabilities)) := rfl
    rw [h1, hq]
    show mapME (diagnoseOne w10Model) [((0 : ℤ), [(7 : ℚ)/10, 3/10])]
        = Except.ok w10Results
    rw [show mapME (diagnoseOne w10Model) [((0 : ℤ), [(7 : ℚ)/10, 3/10])]
        = (diagnoseOne w10Model ((0 : ℤ), [(7 : ℚ)/10, 3/10])) >>=
          (fun b => Except.ok [b]) from rfl]
    rw [hone]
    rfl
  obtain ⟨preds, probas, hp2, hq2, hlen, hall⟩ :=
    diagnose_confidence_risk w10Model [w10Patient] w10Results hdiag
  have hprobas : probas = [[(7 : ℚ)/10, 3/10]] := by
    rw [hq] at hq2
    exact (Except.ok.inj hq2).symm
  obtain ⟨hconf, hbound, hmem, hrisk⟩ := hall 0 (by decide)
  rw [hprobas] at hconf hbound hmem
  have hconf2 : (w10Results.getD 0 ⟨"", 0, [], ""⟩).confidence
      = listMax [(7 : ℚ)/10, 3/10] := hconf
  have hrisk2 : (w10Results.getD 0 ⟨"", 0, [], ""⟩).risk_level = "medium" := by
    rw [hrisk, hconf2, hmax]
    rw [if_neg (show ¬ ((7 : ℚ)/10 > 4/5) by norm_num),
        if_pos (show (7 : ℚ)/10 > 3/5 by norm_num)]
  refine ⟨hdiag, hq, hconf2, ?_, ?_, hrisk2⟩
  · exact hmem (by simp)
  · exact hbound

end BharatAI
